import Mathlib

/-!
Shallow embedding of `src/components/slider/component.jsx` (the `Slider`
React component) together with the lodash `debounce`/`throttle` wrappers it
uses, and proofs about the interaction state machine.

Conventions of the embedding:
* JS `null`/`undefined` numbers are modelled with `Option Int`;
  a comparison of a number with `undefined` is `false`, and `Number(null) = 0`.
* Pointer coordinates and bounding rectangles are rationals (`ℚ`);
  `Math.round` is `⌊q + 1/2⌋` (JS rounds half up).  The degenerate case of a
  zero-width rectangle (which would produce `NaN` in JS) is excluded by a
  `0 < width` hypothesis in the theorems.
* Time is a natural number of milliseconds; `setTimeout` stores an absolute
  fire time.  `lodash.debounce` / `lodash.throttle` are modelled faithfully
  after the lodash implementation (`shouldInvoke`, leading/trailing edges,
  `maxWait` re-arming).
* Callback invocations (`onSlide`, `onStop`) are recorded in trace lists of
  `(time, value)` pairs; they are recorded only when the corresponding prop
  is supplied, matching the `if (this.props.onSlide)` guards in the source.
* `setState` on an unmounted component is a no-op (React semantics): state
  updates and their callbacks are skipped when `mounted = false`.
-/

/-- JS `Math.round` on a rational: round half toward positive infinity. -/
def jsRound (q : ℚ) : Int := ⌊q + 1/2⌋

/-- Inner part of the ternary chain: `newValue < minValue ? minValue : newValue`
with the JS rule that a comparison against `undefined` is false. -/
def clampMinOnly (minValue : Option Int) (newValue : Int) : Int :=
  match minValue with
  | some mn => if newValue < mn then mn else newValue
  | none => newValue

/-- The clamping expression of `calculateValue`:
`newValue > maxValue ? maxValue : newValue < minValue ? minValue : newValue`,
with comparisons against `undefined` being false. -/
def clampMaxMin (maxValue minValue : Option Int) (newValue : Int) : Int :=
  match maxValue with
  | some mx => if newValue > mx then mx else clampMinOnly minValue newValue
  | none => clampMinOnly minValue newValue

/-- The configuration props the interaction logic reads.  `hasOnSlide` and
`hasOnStop` record whether the optional callback props were supplied. -/
structure SliderProps where
  disabled : Bool
  stopCount : Int
  minValue : Option Int
  maxValue : Option Int
  hasOnSlide : Bool
  hasOnStop : Bool
deriving Repr, DecidableEq

/-- Bounding rectangle of the slider DOM node (`getBoundingClientRect`). -/
structure Rect where
  left : ℚ
  right : ℚ
deriving Repr, DecidableEq

/-- The component state: `state = value / isHovered / isSliding`.
The value is an `Option` because `calculateValue` can return `null` and the
move handlers store its result unconditionally. -/
structure SliderState where
  value : Option Int
  isHovered : Bool
  isSliding : Bool
deriving Repr, DecidableEq

/-- Embedding of `calculateValue`.  Returns `none` (JS `null`) when the ref
has no current node; otherwise rounds the relative position and applies the
ternary clamping chain. -/
def calculateValue (p : SliderProps) (slider : Option Rect) (clientX : ℚ) :
    Option Int :=
  match slider with
  | none => none
  | some rect =>
    let width := rect.right - rect.left
    let pos := clientX - rect.left
    let clampedX := min (max 0 pos) width
    let newValue : Int := jsRound (clampedX / width * ((p.stopCount : ℚ) - 1))
    some (clampMaxMin p.maxValue p.minValue newValue)

/-- Internal state of a lodash `debounce`/`throttle` wrapper, generic in the
argument type of the wrapped function. -/
structure DebState (α : Type) where
  lastArgs : Option α
  lastCallTime : Option Nat
  lastInvokeTime : Nat
  timer : Option Nat
deriving Repr, DecidableEq

/-- Fresh lodash wrapper state. -/
def DebState.init {α : Type} : DebState α :=
  { lastArgs := none, lastCallTime := none, lastInvokeTime := 0, timer := none }

/-- lodash `shouldInvoke(time)`: first call, or the wait has elapsed since the
last call, or (when maxing) `maxWait` has elapsed since the last invocation. -/
def debShould {α : Type} (wait maxWait : Nat) (maxing : Bool)
    (st : DebState α) (t : Nat) : Bool :=
  match st.lastCallTime with
  | none => true
  | some lc => decide (wait ≤ t - lc) || (maxing && decide (maxWait ≤ t - st.lastInvokeTime))

/-- A call of the debounced function at time `t` with argument `a`.  Returns
the new wrapper state and whether the wrapped function is invoked now (with
argument `a`, which is the `lastArgs` just stored). -/
def debCall {α : Type} (wait maxWait : Nat) (leading maxing : Bool)
    (st : DebState α) (t : Nat) (a : α) : DebState α × Bool :=
  let isInvoking := debShould wait maxWait maxing st t
  let st1 : DebState α := { st with lastArgs := some a, lastCallTime := some t }
  if isInvoking then
    if st1.timer = none then
      -- leadingEdge: start the trailing timer, invoke immediately iff leading
      if leading then
        ({ st1 with lastInvokeTime := t, timer := some (t + wait), lastArgs := none }, true)
      else
        ({ st1 with lastInvokeTime := t, timer := some (t + wait) }, false)
    else if maxing then
      -- handle invocations in a tight loop: reset timer and invoke now
      ({ st1 with timer := some (t + wait), lastArgs := none, lastInvokeTime := t }, true)
    else
      (st1, false)
  else
    if st1.timer = none then
      ({ st1 with timer := some (t + wait) }, false)
    else
      (st1, false)

/-- lodash `timerExpired` at time `t` (trailing edge enabled, as in both
wrappers used by the slider).  Returns the new wrapper state and the pending
argument when the trailing edge invokes the wrapped function; when it is not
yet time, the timer is re-armed with `remainingWait`. -/
def debTimerExpired {α : Type} (wait maxWait : Nat) (maxing : Bool)
    (st : DebState α) (t : Nat) : DebState α × Option α :=
  if debShould wait maxWait maxing st t then
    -- trailingEdge
    match st.lastArgs with
    | some a =>
      ({ st with timer := none, lastArgs := none, lastInvokeTime := t }, some a)
    | none =>
      ({ st with timer := none }, none)
  else
    let timeWaiting := wait - (t - st.lastCallTime.getD t)
    let remaining :=
      if maxing then min timeWaiting (maxWait - (t - st.lastInvokeTime)) else timeWaiting
    ({ st with timer := some (t + remaining) }, none)

/-- Keyboard keys as the handlers distinguish them. -/
inductive Key where
  | arrowDown
  | arrowRight
  | arrowUp
  | arrowLeft
  | tab
  | escape
  | other
deriving Repr, DecidableEq

/-- Document-level listeners registered by drag start handlers. -/
structure DocListeners where
  mousemove : Bool
  mouseup : Bool
  touchmove : Bool
  touchend : Bool
deriving Repr, DecidableEq

/-- The whole simulated component instance: props, ref, state, document
listeners, the `_timeout` tooltip timer, the two lodash wrapper states, the
mounted flag, and the traces of `onSlide` / `onStop` invocations. -/
structure Sim where
  props : SliderProps
  slider : Option Rect
  state : SliderState
  listeners : DocListeners
  tooltipTimer : Option Nat
  tooltipTarget : Bool
  debSt : DebState Unit
  thrSt : DebState Key
  mounted : Bool
  slides : List (Nat × Option Int)
  stops : List (Nat × Option Int)
deriving Repr, DecidableEq

/-- Fresh mounted instance with `state.value = this.props.value`. -/
def initSim (p : SliderProps) (initialValue : Int) (rect : Option Rect) : Sim :=
  { props := p
    slider := rect
    state := { value := some initialValue, isHovered := false, isSliding := false }
    listeners := { mousemove := false, mouseup := false, touchmove := false, touchend := false }
    tooltipTimer := none
    tooltipTarget := false
    debSt := DebState.init
    thrSt := DebState.init
    mounted := true
    slides := []
    stops := [] }

/-- Embedding of `handleTogglePopover`: clear any pending `_timeout` and
schedule a `setState` of `isHovered := isOpen` after `delay` ms
(last write wins). -/
def handleTogglePopover (isOpen : Bool) (delay : Nat) (now : Nat) (s : Sim) : Sim :=
  { s with tooltipTimer := some (now + delay), tooltipTarget := isOpen }

/-- The `_timeout` callback firing at time `t`: apply the scheduled
`setState` (a no-op when unmounted) and null out `_timeout`. -/
def fireTooltip (_t : Nat) (s : Sim) : Sim :=
  { s with
    tooltipTimer := none
    state := if s.mounted then { s.state with isHovered := s.tooltipTarget } else s.state }

/-- Embedding of `handleMouseMove`: compute the value, and when it differs
from the current state value, invoke `onSlide` (when supplied) and set
`value` and `isHovered`. -/
def handleMouseMove (now : Nat) (clientX : ℚ) (s : Sim) : Sim :=
  if s.props.disabled then s
  else
    let value := calculateValue s.props s.slider clientX
    if s.state.value ≠ value then
      let s1 := if s.props.hasOnSlide then { s with slides := s.slides ++ [(now, value)] } else s
      if s1.mounted then
        { s1 with state := { s1.state with value := value, isHovered := true } }
      else s1
    else s

/-- Embedding of `handleMouseDown`: ignore when disabled, non-primary button
or already sliding; otherwise register document listeners, set
`isHovered`/`isSliding` and process the press position as a move. -/
def handleMouseDown (now : Nat) (button : Int) (clientX : ℚ) (s : Sim) : Sim :=
  if s.props.disabled then s
  else if button ≠ 0 ∨ s.state.isSliding then s
  else
    let s1 := { s with
      listeners := { s.listeners with mousemove := true, mouseup := true }
      state := { s.state with isHovered := true, isSliding := true } }
    handleMouseMove now clientX s1

/-- Embedding of `handleMouseUp`: ignore when disabled; otherwise remove the
document listeners, invoke `onStop(state.value)` (when supplied), clear
`isSliding` and schedule the tooltip close with the default delay. -/
def handleMouseUp (now : Nat) (s : Sim) : Sim :=
  if s.props.disabled then s
  else
    let s1 := { s with listeners := { s.listeners with mousemove := false, mouseup := false } }
    let s2 := if s1.props.hasOnStop then { s1 with stops := s1.stops ++ [(now, s1.state.value)] }
              else s1
    let s3 := if s2.mounted then { s2 with state := { s2.state with isSliding := false } } else s2
    handleTogglePopover false 0 now s3

/-- Embedding of `handleTouchMove`: like the mouse variant but without
touching `isHovered`. -/
def handleTouchMove (now : Nat) (clientX : ℚ) (s : Sim) : Sim :=
  if s.props.disabled then s
  else
    let value := calculateValue s.props s.slider clientX
    if s.state.value ≠ value then
      let s1 := if s.props.hasOnSlide then { s with slides := s.slides ++ [(now, value)] } else s
      if s1.mounted then { s1 with state := { s1.state with value := value } } else s1
    else s

/-- Embedding of `handleTouchStart`: ignore when disabled; otherwise register
touch listeners, set the flags and process the position as a move.  Note the
source has no `isSliding` guard here, unlike `handleMouseDown`. -/
def handleTouchStart (now : Nat) (clientX : ℚ) (s : Sim) : Sim :=
  if s.props.disabled then s
  else
    let s1 := { s with
      listeners := { s.listeners with touchmove := true, touchend := true }
      state := { s.state with isHovered := true, isSliding := true } }
    handleTouchMove now clientX s1

/-- Embedding of `handleTouchEnd`: remove listeners, invoke `onStop`, clear
`isSliding`, schedule the tooltip close after 250 ms. -/
def handleTouchEnd (now : Nat) (s : Sim) : Sim :=
  if s.props.disabled then s
  else
    let s1 := { s with listeners := { s.listeners with touchmove := false, touchend := false } }
    let s2 := if s1.props.hasOnStop then { s1 with stops := s1.stops ++ [(now, s1.state.value)] }
              else s1
    let s3 := if s2.mounted then { s2 with state := { s2.state with isSliding := false } } else s2
    handleTogglePopover false 250 now s3

/-- JS numeric coercion of a possibly-null state value (`Number(null) = 0`). -/
def jsNum (v : Option Int) : Int := v.getD 0

/-- The increment clamp of the throttled key handler:
`newValue > maxValue ? maxValue : newValue > stopCount - 1 ? stopCount - 1 : newValue`. -/
def keyClampUp (maxValue : Option Int) (stopCount newValue : Int) : Int :=
  match maxValue with
  | some mx => if newValue > mx then mx
               else if newValue > stopCount - 1 then stopCount - 1 else newValue
  | none => if newValue > stopCount - 1 then stopCount - 1 else newValue

/-- The decrement clamp of the throttled key handler:
`newValue < minValue ? minValue : newValue < 0 ? 0 : newValue`. -/
def keyClampDown (minValue : Option Int) (newValue : Int) : Int :=
  match minValue with
  | some mn => if newValue < mn then mn
               else if newValue < 0 then 0 else newValue
  | none => if newValue < 0 then 0 else newValue

/-- A call of `handleDebouncedKeyInput` (the debounced wrapper itself; wait
250 ms, no leading edge, no maxWait).  The wrapped body never runs at call
time because `leading` is false; it runs from the trailing-edge timer. -/
def handleDebouncedKeyInput (now : Nat) (s : Sim) : Sim :=
  let r := debCall 250 0 false false s.debSt now ()
  { s with debSt := r.1 }

/-- The `setState` commit shared by both arrow branches of the throttled key
handler: set `value`/`isHovered`, then (in the setState callback) call the
debounced key-input wrapper and invoke `onSlide(value)`.  A no-op when the
component is unmounted. -/
def keyCommit (now : Nat) (value : Int) (s : Sim) : Sim :=
  if s.mounted then
    let s1 := { s with state := { s.state with value := some value, isHovered := true } }
    let s2 := handleDebouncedKeyInput now s1
    if s2.props.hasOnSlide then { s2 with slides := s2.slides ++ [(now, some value)] } else s2
  else s

/-- The body of `handleThrottledKeyDown` (the function wrapped by
`throttle(..., 50)`). -/
def keyDownBody (now : Nat) (k : Key) (s : Sim) : Sim :=
  if s.props.disabled then
    if s.mounted then
      handleTogglePopover false 400 now { s with state := { s.state with isHovered := true } }
    else s
  else if k = Key.arrowDown ∨ k = Key.arrowRight then
    keyCommit now (keyClampUp s.props.maxValue s.props.stopCount (jsNum s.state.value + 1)) s
  else if k = Key.arrowUp ∨ k = Key.arrowLeft then
    keyCommit now (keyClampDown s.props.minValue (jsNum s.state.value - 1)) s
  else s

/-- A call of `handleThrottledKeyDown` (throttle: wait 50 ms, leading and
trailing edges, `maxWait = 50`). -/
def handleThrottledKeyDown (now : Nat) (k : Key) (s : Sim) : Sim :=
  let r := debCall 50 50 true true s.thrSt now k
  let s1 := { s with thrSt := r.1 }
  if r.2 then keyDownBody now k s1 else s1

/-- Embedding of `handleKeyDown`: Tab and Escape are ignored entirely; every
other key is routed to the throttled handler. -/
def handleKeyDown (now : Nat) (k : Key) (s : Sim) : Sim :=
  if k = Key.tab ∨ k = Key.escape then s else handleThrottledKeyDown now k s

/-- Embedding of `componentWillUnmount` plus the unmount itself: the source
clears only `this._timeout`; the lodash wrapper timers are left pending. -/
def unmount (s : Sim) : Sim :=
  { s with tooltipTimer := none, mounted := false }

/-- The throttle trailing-edge timer firing at time `t`. -/
def fireThrottle (t : Nat) (s : Sim) : Sim :=
  let r := debTimerExpired 50 50 true s.thrSt t
  let s1 := { s with thrSt := r.1 }
  match r.2 with
  | some k => keyDownBody t k s1
  | none => s1

/-- The body of `handleDebouncedKeyInput`: schedule the tooltip close after a
further 150 ms, then invoke `onStop(state.value)` (when supplied). -/
def debouncedKeyBody (now : Nat) (s : Sim) : Sim :=
  let s1 := handleTogglePopover false 150 now s
  if s1.props.hasOnStop then { s1 with stops := s1.stops ++ [(now, s1.state.value)] } else s1

/-- The debounce trailing-edge timer firing at time `t`. -/
def fireDebounce (t : Nat) (s : Sim) : Sim :=
  let r := debTimerExpired 250 0 false s.debSt t
  let s1 := { s with debSt := r.1 }
  match r.2 with
  | some _ => debouncedKeyBody t s1
  | none => s1

/-- External events fed to the scheduler.  Document-level move/end events
reach the component only while the corresponding listener is registered. -/
inductive Ev where
  | keyDown (k : Key)
  | mouseDown (button : Int) (clientX : ℚ)
  | mouseMove (clientX : ℚ)
  | mouseUp
  | touchStart (clientX : ℚ)
  | touchMove (clientX : ℚ)
  | touchEnd
  | setDisabled (b : Bool)
  | unmountEv
deriving Repr, DecidableEq

/-- Dispatch of one external event at time `t`. -/
def applyEv (t : Nat) (e : Ev) (s : Sim) : Sim :=
  match e with
  | Ev.keyDown k => handleKeyDown t k s
  | Ev.mouseDown b x => handleMouseDown t b x s
  | Ev.mouseMove x => if s.listeners.mousemove then handleMouseMove t x s else s
  | Ev.mouseUp => if s.listeners.mouseup then handleMouseUp t s else s
  | Ev.touchStart x => handleTouchStart t x s
  | Ev.touchMove x => if s.listeners.touchmove then handleTouchMove t x s else s
  | Ev.touchEnd => if s.listeners.touchend then handleTouchEnd t s else s
  | Ev.setDisabled b => { s with props := { s.props with disabled := b } }
  | Ev.unmountEv => unmount s

/-- Minimum of two optional fire times. -/
def optMin (a b : Option Nat) : Option Nat :=
  match a, b with
  | none, b => b
  | some x, none => some x
  | some x, some y => some (min x y)

/-- Earliest pending timer of the instance. -/
def minTimer (s : Sim) : Option Nat :=
  optMin (optMin s.tooltipTimer s.thrSt.timer) s.debSt.timer

/-- Fire whichever timer is due at time `t` (at most one per step; ties are
broken tooltip, throttle, debounce). -/
def fireEarliest (t : Nat) (s : Sim) : Sim :=
  if s.tooltipTimer = some t then fireTooltip t s
  else if s.thrSt.timer = some t then fireThrottle t s
  else if s.debSt.timer = some t then fireDebounce t s
  else s

/-- Event-loop scheduler: repeatedly process the earliest of (pending timers,
next external event), timers first on ties.  `fuel` bounds the step count. -/
def run (fuel : Nat) (evs : List (Nat × Ev)) (s : Sim) : Sim :=
  match fuel with
  | 0 => s
  | fuel + 1 =>
    match minTimer s, evs with
    | none, [] => s
    | some t, [] => run fuel [] (fireEarliest t s)
    | none, (te, e) :: rest => run fuel rest (applyEv te e s)
    | some t, (te, e) :: rest =>
      if t ≤ te then run fuel ((te, e) :: rest) (fireEarliest t s)
      else run fuel rest (applyEv te e s)

/-! Concrete instances shared by the examples below. -/

/-- A props record with no bounds: ten stops, both callbacks supplied. -/
def cfgFree : SliderProps :=
  { disabled := false, stopCount := 10, minValue := none, maxValue := none,
    hasOnSlide := true, hasOnStop := true }

/-- A props record with bounds: ten stops, `minValue = 2`, `maxValue = 8`. -/
def cfgBounded : SliderProps :=
  { disabled := false, stopCount := 10, minValue := some 2, maxValue := some 8,
    hasOnSlide := true, hasOnStop := true }

/-- A mounted bounding rectangle spanning client x-coordinates 0 to 100. -/
def rect100 : Rect := { left := 0, right := 100 }

/-! Claim C10: non-primary-button or re-entrant mouse-down is a complete no-op. -/

/-- C10: a mouse-down whose button is not the primary one, or arriving while
a drag is already active (`isSliding`), leaves the whole instance untouched:
no state change, no listener registration, no callback trace entry. -/
theorem mouseDown_nonprimary_or_resliding_noop (now : Nat) (button : Int) (x : ℚ) (s : Sim)
    (h : button ≠ 0 ∨ s.state.isSliding = true) :
    handleMouseDown now button x s = s := by
  unfold handleMouseDown
  rcases h with h | h
  · split
    · rfl
    · rw [if_pos (Or.inl h)]
  · split
    · rfl
    · rw [if_pos (Or.inr (by simp [h]))]

/-- Witness for C10 at a concrete input: a right-button press (button 2) on a
fresh instance changes nothing. -/
theorem mouseDown_nonprimary_or_resliding_noop_witness :
    handleMouseDown 0 2 50 (initSim cfgFree 5 (some rect100)) = initSim cfgFree 5 (some rect100) :=
  mouseDown_nonprimary_or_resliding_noop 0 2 50 (initSim cfgFree 5 (some rect100))
    (Or.inl (by decide))

/-! Claim C2: the null result of `calculateValue` and how the move handlers
actually treat it. -/

/-- C2 counterexample: with no bounding rectangle available (`slider = none`)
and current value 5, `handleMouseMove` does NOT ignore the event: it invokes
`onSlide(null)` and overwrites the state value with `null`.  This refutes the
claim that callers treat the null result as "ignore the event". -/
theorem mouseMove_null_not_ignored :
    (handleMouseMove 0 50 (initSim cfgFree 5 none)).slides = [(0, none)] ∧
    (handleMouseMove 0 50 (initSim cfgFree 5 none)).state.value = none ∧
    (initSim cfgFree 5 none).slides = [] ∧
    (initSim cfgFree 5 none).state.value = some 5 := by
  decide

/-- C2 amended: `calculateValue` does return `null` when the widget has no
bounding rectangle, but the move handlers treat that `null` like any other
changed value: when the current value is non-null they invoke `onSlide(null)`
and store `null`; the event is skipped only when the state value is already
`null`. -/
theorem calculateValue_null_and_move_handling :
    (∀ (p : SliderProps) (x : ℚ), calculateValue p none x = none) ∧
    (∀ (s : Sim) (now : Nat) (x : ℚ),
      s.props.disabled = false → s.slider = none → s.mounted = true →
      s.props.hasOnSlide = true → s.state.value ≠ none →
      handleMouseMove now x s =
        { s with slides := s.slides ++ [(now, none)],
                 state := { s.state with value := none, isHovered := true } } ∧
      handleTouchMove now x s =
        { s with slides := s.slides ++ [(now, none)],
                 state := { s.state with value := none } }) ∧
    (∀ (s : Sim) (now : Nat) (x : ℚ),
      s.props.disabled = false → s.slider = none → s.state.value = none →
      handleMouseMove now x s = s ∧ handleTouchMove now x s = s) := by
  refine ⟨fun p x => rfl, ?_, ?_⟩
  · intro s now x hd hsl hm hslide hv
    constructor
    · unfold handleMouseMove
      rw [hd]
      simp only [Bool.false_eq_true, if_false, hsl, hslide, hm]
      simp [calculateValue, hv]
    · unfold handleTouchMove
      rw [hd]
      simp only [Bool.false_eq_true, if_false, hsl, hslide, hm]
      simp [calculateValue, hv]
  · intro s now x hd hsl hv
    constructor
    · unfold handleMouseMove
      rw [hd]
      simp [calculateValue, hsl, hv]
    · unfold handleTouchMove
      rw [hd]
      simp [calculateValue, hsl, hv]

/-- Witness for the amended C2 statement at a concrete input. -/
theorem calculateValue_null_and_move_handling_witness :
    handleMouseMove 3 42 (initSim cfgFree 7 none) =
      { initSim cfgFree 7 none with
        slides := [(3, none)],
        state := { (initSim cfgFree 7 none).state with value := none, isHovered := true } } :=
  (calculateValue_null_and_move_handling.2.1 (initSim cfgFree 7 none) 3 42
    rfl rfl rfl rfl (by decide)).1

/-! Claim C3: when `onSlide` fires. -/

/-- C3 counterexample: an ArrowRight press while the value already sits at
`maxValue` leaves the value unchanged, yet the keyboard handler still invokes
`onSlide` (the source calls `onSlide` unconditionally in the `setState`
callback).  This refutes "never invoked when the handler leaves the value
unchanged". -/
theorem keyDown_boundary_still_slides :
    (handleKeyDown 0 Key.arrowRight (initSim cfgBounded 8 none)).state.value = some 8 ∧
    (initSim cfgBounded 8 none).state.value = some 8 ∧
    (handleKeyDown 0 Key.arrowRight (initSim cfgBounded 8 none)).slides = [(0, some 8)] ∧
    (initSim cfgBounded 8 none).slides = [] := by
  decide

/-- C3 amended: for pointer and touch moves, `onSlide` fires exactly once per
committed value change and never for a no-op move; but every arrow press that
reaches the throttled handler body fires `onSlide` once with the (clamped)
new value, even when that value equals the current one. -/
theorem onSlide_per_change_moves_but_always_on_keys :
    (∀ (s : Sim) (now : Nat) (x : ℚ),
      s.props.disabled = false →
      calculateValue s.props s.slider x = s.state.value →
      handleMouseMove now x s = s ∧ handleTouchMove now x s = s) ∧
    (∀ (s : Sim) (now : Nat) (x : ℚ),
      s.props.disabled = false → s.props.hasOnSlide = true →
      calculateValue s.props s.slider x ≠ s.state.value →
      (handleMouseMove now x s).slides =
        s.slides ++ [(now, calculateValue s.props s.slider x)] ∧
      (handleTouchMove now x s).slides =
        s.slides ++ [(now, calculateValue s.props s.slider x)]) ∧
    (∀ (s : Sim) (now : Nat) (k : Key),
      s.props.disabled = false → s.mounted = true → s.props.hasOnSlide = true →
      (k = Key.arrowDown ∨ k = Key.arrowRight) →
      (keyDownBody now k s).slides =
        s.slides ++ [(now, some (keyClampUp s.props.maxValue s.props.stopCount
          (jsNum s.state.value + 1)))]) ∧
    (∀ (s : Sim) (now : Nat) (k : Key),
      s.props.disabled = false → s.mounted = true → s.props.hasOnSlide = true →
      (k = Key.arrowUp ∨ k = Key.arrowLeft) →
      (keyDownBody now k s).slides =
        s.slides ++ [(now, some (keyClampDown s.props.minValue
          (jsNum s.state.value - 1)))]) := by
  refine ⟨?_, ?_, ?_, ?_⟩
  · intro s now x hd hv
    constructor
    · unfold handleMouseMove
      rw [hd]
      simp [hv]
    · unfold handleTouchMove
      rw [hd]
      simp [hv]
  · intro s now x hd hslide hv
    have hv' : s.state.value ≠ calculateValue s.props s.slider x := fun h => hv h.symm
    constructor
    · by_cases hmt : s.mounted = true <;>
        simp [handleMouseMove, hd, hv', hslide, hmt]
    · by_cases hmt : s.mounted = true <;>
        simp [handleTouchMove, hd, hv', hslide, hmt]
  · intro s now k hd hm hslide hk
    unfold keyDownBody
    rw [hd]
    have hk' : (k = Key.arrowDown ∨ k = Key.arrowRight) := hk
    simp only [Bool.false_eq_true, if_false, if_pos hk']
    unfold keyCommit handleDebouncedKeyInput
    simp [hm, hslide]
  · intro s now k hd hm hslide hk
    have hk' : ¬(k = Key.arrowDown ∨ k = Key.arrowRight) := by
      rcases hk with h | h <;> subst h <;> simp
    unfold keyDownBody
    rw [hd]
    simp only [Bool.false_eq_true, if_false, if_neg hk', if_pos hk]
    unfold keyCommit handleDebouncedKeyInput
    simp [hm, hslide]

/-- A sim whose state value is already `null`, as left behind by a move that
happened with no bounding rectangle. -/
def simNullValue : Sim :=
  { initSim cfgFree 5 none with
    state := { value := none, isHovered := false, isSliding := false } }

/-- Witness for the amended C3 statement at a concrete input: a no-op mouse
move (the computed value equals the current one) fires nothing. -/
theorem onSlide_per_change_moves_but_always_on_keys_witness :
    handleMouseMove 0 1 simNullValue = simNullValue :=
  (onSlide_per_change_moves_but_always_on_keys.1 simNullValue 0 1
    rfl (by decide)).1

/-! Claim C5: arrow-key semantics and the bounded three-press scenario. -/

/-- The increment branch equals clamping `v+1` to `min(maxValue, stopCount-1)`
whenever the current value lies in `[0, stopCount-1]`. -/
theorem keyClampUp_eq_min (mx : Option Int) (sc v : Int)
    (_h0 : 0 ≤ v) (h1 : v ≤ sc - 1) :
    keyClampUp mx sc (v + 1) = min (v + 1) (min (mx.getD (sc - 1)) (sc - 1)) := by
  cases mx with
  | none => simp only [keyClampUp, Option.getD_none]; split_ifs <;> omega
  | some m => simp only [keyClampUp, Option.getD_some]; split_ifs <;> omega

/-- The decrement branch equals clamping `v-1` to `max(minValue, 0)` whenever
the current value lies in `[0, stopCount-1]`. -/
theorem keyClampDown_eq_max (mn : Option Int) (v : Int) (h0 : 0 ≤ v) :
    keyClampDown mn (v - 1) = max (v - 1) (max (mn.getD 0) 0) := by
  cases mn with
  | none => simp only [keyClampDown, Option.getD_none]; split_ifs <;> omega
  | some m => simp only [keyClampDown, Option.getD_some]; split_ifs <;> omega

/-- C5: on a non-disabled widget with value `v ∈ [0, stopCount-1]`,
ArrowDown/ArrowRight set the value to `v+1` clamped to
`min(maxValue, stopCount-1)`; ArrowUp/ArrowLeft set it to `v-1` clamped to
`max(minValue, 0)`; any other key leaves the instance unchanged (Tab and
Escape never even reach the throttled handler).  In particular, with
`stopCount = 10`, `minValue = 2`, `maxValue = 8` and initial value 5, three
ArrowRight presses (at 0 ms, 100 ms, 200 ms, each processed by the throttled
handler) end at value 8 with exactly one `onStop(8)` call. -/
theorem keyboard_arrow_semantics :
    (∀ (s : Sim) (now : Nat) (k : Key) (v : Int),
      s.props.disabled = false → s.mounted = true → s.state.value = some v →
      0 ≤ v → v ≤ s.props.stopCount - 1 →
      ((k = Key.arrowDown ∨ k = Key.arrowRight) →
        (keyDownBody now k s).state.value =
          some (min (v + 1)
            (min (s.props.maxValue.getD (s.props.stopCount - 1)) (s.props.stopCount - 1)))) ∧
      ((k = Key.arrowUp ∨ k = Key.arrowLeft) →
        (keyDownBody now k s).state.value =
          some (max (v - 1) (max (s.props.minValue.getD 0) 0))) ∧
      (k = Key.other → keyDownBody now k s = s)) ∧
    (∀ (s : Sim) (now : Nat) (k : Key),
      (k = Key.tab ∨ k = Key.escape) → handleKeyDown now k s = s) ∧
    ((run 60 [(0, Ev.keyDown Key.arrowRight), (100, Ev.keyDown Key.arrowRight),
        (200, Ev.keyDown Key.arrowRight)] (initSim cfgBounded 5 none)).state.value = some 8 ∧
      (run 60 [(0, Ev.keyDown Key.arrowRight), (100, Ev.keyDown Key.arrowRight),
        (200, Ev.keyDown Key.arrowRight)] (initSim cfgBounded 5 none)).stops = [(450, some 8)]) := by
  refine ⟨?_, ?_, by decide⟩
  · intro s now k v hd hm hv h0 h1
    refine ⟨?_, ?_, ?_⟩
    · intro hk
      have : (keyDownBody now k s).state.value =
          some (keyClampUp s.props.maxValue s.props.stopCount (jsNum s.state.value + 1)) := by
        unfold keyDownBody
        rw [hd]
        simp only [Bool.false_eq_true, if_false, if_pos hk]
        unfold keyCommit handleDebouncedKeyInput
        rw [hm]
        simp only [if_true]
        split <;> rfl
      rw [this, hv]
      simp only [jsNum, Option.getD_some]
      rw [keyClampUp_eq_min s.props.maxValue s.props.stopCount v h0 h1]
    · intro hk
      have hk' : ¬(k = Key.arrowDown ∨ k = Key.arrowRight) := by
        rcases hk with h | h <;> subst h <;> simp
      have : (keyDownBody now k s).state.value =
          some (keyClampDown s.props.minValue (jsNum s.state.value - 1)) := by
        unfold keyDownBody
        rw [hd]
        simp only [Bool.false_eq_true, if_false, if_neg hk', if_pos hk]
        unfold keyCommit handleDebouncedKeyInput
        rw [hm]
        simp only [if_true]
        split <;> rfl
      rw [this, hv]
      simp only [jsNum, Option.getD_some]
      rw [keyClampDown_eq_max s.props.minValue v h0]
    · intro hk
      subst hk
      unfold keyDownBody
      rw [hd]
      simp
  · intro s now k hk
    unfold handleKeyDown
    rw [if_pos hk]

/-- Witness for C5 at a concrete input: an ArrowRight on the bounded config
at value 5 moves the value to `min(6, min(8, 9)) = 6`. -/
theorem keyboard_arrow_semantics_witness :
    (keyDownBody 0 Key.arrowRight (initSim cfgBounded 5 none)).state.value =
      some (min (5 + 1)
        (min (((initSim cfgBounded 5 none).props.maxValue).getD
          ((initSim cfgBounded 5 none).props.stopCount - 1))
          ((initSim cfgBounded 5 none).props.stopCount - 1))) :=
  ((keyboard_arrow_semantics.1 (initSim cfgBounded 5 none) 0 Key.arrowRight 5
    rfl rfl rfl (by decide) (by decide)).1 (Or.inr rfl))

/-! Claim C6: five rapid ArrowRight presses and the throttle's trailing edge. -/

/-- C6 counterexample: five ArrowRight presses at 0, 10, 20, 30, 40 ms on the
unbounded ten-stop config starting at value 5.  The claim predicts a final
value of `min(5+1, 10-1) = 6` with the repeated presses dropped; the code
(lodash throttle with its default trailing edge) replays the last queued
press at the end of the 50 ms window, ending at value 7. -/
theorem five_presses_not_dropped :
    (run 60 [(0, Ev.keyDown Key.arrowRight), (10, Ev.keyDown Key.arrowRight),
      (20, Ev.keyDown Key.arrowRight), (30, Ev.keyDown Key.arrowRight),
      (40, Ev.keyDown Key.arrowRight)] (initSim cfgFree 5 none)).state.value = some 7 ∧
    min ((5 : Int) + 1) (cfgFree.stopCount - 1) = 6 := by
  decide

/-- C6 amended: for five ArrowRight presses within one 50 ms window, the
throttle invokes the handler on the leading edge (value 6 at t = 0) and once
more on the trailing edge with the last queued press (value 7 at t = 50);
presses two to four are coalesced away.  Exactly one `onStop` fires after the
debounce window (at t = 300 = 50 + 250), with the final value
`initial + 2` clamped. -/
theorem five_presses_trailing_edge :
    (run 60 [(0, Ev.keyDown Key.arrowRight), (10, Ev.keyDown Key.arrowRight),
      (20, Ev.keyDown Key.arrowRight), (30, Ev.keyDown Key.arrowRight),
      (40, Ev.keyDown Key.arrowRight)] (initSim cfgFree 5 none)).slides =
        [(0, some 6), (50, some 7)] ∧
    (run 60 [(0, Ev.keyDown Key.arrowRight), (10, Ev.keyDown Key.arrowRight),
      (20, Ev.keyDown Key.arrowRight), (30, Ev.keyDown Key.arrowRight),
      (40, Ev.keyDown Key.arrowRight)] (initSim cfgFree 5 none)).stops = [(300, some 7)] ∧
    (run 60 [(0, Ev.keyDown Key.arrowRight), (10, Ev.keyDown Key.arrowRight),
      (20, Ev.keyDown Key.arrowRight), (30, Ev.keyDown Key.arrowRight),
      (40, Ev.keyDown Key.arrowRight)] (initSim cfgFree 5 none)).state.value = some 7 := by
  decide

/-! Claim C7: the delay of the debounced `onStop` notification. -/

/-- C7 counterexample: a single ArrowRight press at t = 0 leads to the one
`onStop` call at t = 250, not 150 ms after the key event as claimed: the
lodash debounce wait in the source is 250 ms (the 150 ms figure is the
tooltip-close delay used inside the debounced body). -/
theorem onStop_at_250_not_150 :
    (run 60 [(0, Ev.keyDown Key.arrowRight)] (initSim cfgFree 5 none)).stops =
      [(250, some 6)] ∧ (250 : Nat) ≠ 0 + 150 := by
  decide

/-- C7 amended: the `onStop` notification for keyboard input is debounced
with a 250 ms wait after the last (throttle-accepted) key input, so a rapid
sequence yields exactly one `onStop`; when the debounced body runs it
schedules the tooltip close a further 150 ms later and then invokes
`onStop(state.value)` once.  Concretely, presses at 0 and 100 ms produce the
single `onStop` at t = 350 = 100 + 250. -/
theorem debounced_onStop_250ms :
    (∀ (s : Sim) (now : Nat), s.props.hasOnStop = true →
      (debouncedKeyBody now s).stops = s.stops ++ [(now, s.state.value)] ∧
      (debouncedKeyBody now s).tooltipTimer = some (now + 150)) ∧
    (∀ (s : Sim) (now : Nat), s.debSt.timer = none →
      (handleDebouncedKeyInput now s).debSt.timer = some (now + 250)) ∧
    ((run 60 [(0, Ev.keyDown Key.arrowRight), (100, Ev.keyDown Key.arrowRight)]
        (initSim cfgFree 5 none)).stops = [(350, some 7)] ∧ (350 : Nat) = 100 + 250) := by
  refine ⟨?_, ?_, by decide⟩
  · intro s now hstop
    unfold debouncedKeyBody handleTogglePopover
    simp [hstop]
  · intro s now ht
    unfold handleDebouncedKeyInput debCall
    simp only [ht]
    split <;> simp

/-- Witness for the amended C7 statement at a concrete input. -/
theorem debounced_onStop_250ms_witness :
    (debouncedKeyBody 40 (initSim cfgFree 5 none)).stops = [] ++ [(40, some 5)] ∧
    (debouncedKeyBody 40 (initSim cfgFree 5 none)).tooltipTimer = some (40 + 150) :=
  debounced_onStop_250ms.1 (initSim cfgFree 5 none) 40 rfl

/-! Claim C9: which timers teardown actually cancels. -/

/-- C9: the failing run for the teardown claim.  One ArrowRight press at
t = 0 arms the 250 ms debounce timer; the component is unmounted at t = 100
(`componentWillUnmount` clears only `this._timeout`); the debounce timer
survives and fires at t = 250, invoking `onStop(6)` after teardown.  The
tooltip timer itself is gone (`tooltipTimer = none` right after unmount). -/
theorem onStop_fires_after_unmount :
    (run 60 [(0, Ev.keyDown Key.arrowRight), (100, Ev.unmountEv)]
      (initSim cfgFree 5 none)).stops = [(250, some 6)] ∧
    (run 60 [(0, Ev.keyDown Key.arrowRight), (100, Ev.unmountEv)]
      (initSim cfgFree 5 none)).mounted = false ∧
    (run 3 [(0, Ev.keyDown Key.arrowRight), (100, Ev.unmountEv)]
      (initSim cfgFree 5 none)).tooltipTimer = none ∧
    (run 3 [(0, Ev.keyDown Key.arrowRight), (100, Ev.unmountEv)]
      (initSim cfgFree 5 none)).debSt.timer = some 250 ∧
    (100 : Nat) < 250 := by
  decide

/-! Claim C1: range of the Value Mapper. -/

/-- Lower bound of the JS rounding: a nonnegative input rounds to a
nonnegative integer. -/
theorem jsRound_nonneg (q : ℚ) (h : 0 ≤ q) : 0 ≤ jsRound q := by
  unfold jsRound
  exact Int.le_floor.mpr (by push_cast; linarith)

/-- Upper bound of the JS rounding: an input at most `n` rounds to at most
`n`. -/
theorem jsRound_le (q : ℚ) (n : Int) (h : q ≤ (n : ℚ)) : jsRound q ≤ n := by
  unfold jsRound
  have := Int.floor_lt.mpr (show q + 1/2 < ((n + 1 : Int) : ℚ) by push_cast; linarith)
  omega

/-- The ternary clamping chain keeps well-formed bounds: a raw value in
`[0, stopCount-1]` stays there, lands at or above a set `minValue` and at or
below a set `maxValue`. -/
theorem clampMaxMin_bounds (maxV minV : Option Int) (sc n : Int)
    (hn0 : 0 ≤ n) (hn1 : n ≤ sc - 1)
    (hmin : ∀ mn, minV = some mn → 0 ≤ mn ∧ mn ≤ sc - 1)
    (hmax : ∀ mx, maxV = some mx → 0 ≤ mx ∧ mx ≤ sc - 1)
    (hmm : ∀ mn mx, minV = some mn → maxV = some mx → mn ≤ mx) :
    0 ≤ clampMaxMin maxV minV n ∧ clampMaxMin maxV minV n ≤ sc - 1 ∧
    (∀ mn, minV = some mn → mn ≤ clampMaxMin maxV minV n) ∧
    (∀ mx, maxV = some mx → clampMaxMin maxV minV n ≤ mx) := by
  have hmn' : ∀ mn, minV = some mn → 0 ≤ mn ∧ mn ≤ sc - 1 := hmin
  cases maxV with
  | none =>
    cases minV with
    | none =>
      simp only [clampMaxMin, clampMinOnly]
      refine ⟨hn0, hn1, fun mn h => Option.noConfusion h, fun mx h => Option.noConfusion h⟩
    | some mn =>
      obtain ⟨hmn0, hmn1⟩ := hmin mn rfl
      simp only [clampMaxMin, clampMinOnly]
      refine ⟨?_, ?_, ?_, fun mx h => Option.noConfusion h⟩
      · split_ifs <;> omega
      · split_ifs <;> omega
      · intro mn' h
        injection h with h
        subst h
        split_ifs <;> omega
  | some mx =>
    obtain ⟨hmx0, hmx1⟩ := hmax mx rfl
    cases minV with
    | none =>
      simp only [clampMaxMin, clampMinOnly]
      refine ⟨?_, ?_, fun mn h => Option.noConfusion h, ?_⟩
      · split_ifs <;> omega
      · split_ifs <;> omega
      · intro mx' h
        injection h with h
        subst h
        split_ifs <;> omega
    | some mn =>
      obtain ⟨hmn0, hmn1⟩ := hmin mn rfl
      have hle : mn ≤ mx := hmm mn mx rfl rfl
      simp only [clampMaxMin, clampMinOnly]
      refine ⟨?_, ?_, ?_, ?_⟩
      · split_ifs <;> omega
      · split_ifs <;> omega
      · intro mn' h
        injection h with h
        subst h
        split_ifs <;> omega
      · intro mx' h
        injection h with h
        subst h
        split_ifs <;> omega

/-- C1: whenever the widget is mounted with a positive-width bounding
rectangle, `stopCount ≥ 1`, and any supplied bounds are well formed, the
Value Mapper returns `round(clamp(clientX - rect.left, 0, width) / width *
(stopCount - 1))` run through the clamping chain, and the result is an
integer in `[0, stopCount-1]`, further within `[minValue, maxValue]` for
whichever bounds are set. -/
theorem calculateValue_in_range (p : SliderProps) (rect : Rect) (clientX : ℚ)
    (hsc : 1 ≤ p.stopCount)
    (hw : 0 < rect.right - rect.left)
    (hmin : ∀ mn, p.minValue = some mn → 0 ≤ mn ∧ mn ≤ p.stopCount - 1)
    (hmax : ∀ mx, p.maxValue = some mx → 0 ≤ mx ∧ mx ≤ p.stopCount - 1)
    (hmm : ∀ mn mx, p.minValue = some mn → p.maxValue = some mx → mn ≤ mx) :
    ∃ v, calculateValue p (some rect) clientX = some v ∧
      v = clampMaxMin p.maxValue p.minValue
        (jsRound (min (max 0 (clientX - rect.left)) (rect.right - rect.left) /
          (rect.right - rect.left) * ((p.stopCount : ℚ) - 1))) ∧
      0 ≤ v ∧ v ≤ p.stopCount - 1 ∧
      (∀ mn, p.minValue = some mn → mn ≤ v) ∧
      (∀ mx, p.maxValue = some mx → v ≤ mx) := by
  have hcx0 : 0 ≤ min (max 0 (clientX - rect.left)) (rect.right - rect.left) :=
    le_min (le_max_left _ _) hw.le
  have hcx1 : min (max 0 (clientX - rect.left)) (rect.right - rect.left) ≤
      rect.right - rect.left := min_le_right _ _
  have hr0 : 0 ≤ min (max 0 (clientX - rect.left)) (rect.right - rect.left) /
      (rect.right - rect.left) := div_nonneg hcx0 hw.le
  have hr1 : min (max 0 (clientX - rect.left)) (rect.right - rect.left) /
      (rect.right - rect.left) ≤ 1 := (div_le_one hw).mpr hcx1
  have hsc' : (0 : ℚ) ≤ (p.stopCount : ℚ) - 1 := by
    have : (1 : ℚ) ≤ (p.stopCount : ℚ) := by exact_mod_cast hsc
    linarith
  have hq0 : 0 ≤ min (max 0 (clientX - rect.left)) (rect.right - rect.left) /
      (rect.right - rect.left) * ((p.stopCount : ℚ) - 1) := mul_nonneg hr0 hsc'
  have hq1 : min (max 0 (clientX - rect.left)) (rect.right - rect.left) /
      (rect.right - rect.left) * ((p.stopCount : ℚ) - 1) ≤ (p.stopCount : ℚ) - 1 :=
    mul_le_of_le_one_left hsc' hr1
  have hn0 : 0 ≤ jsRound (min (max 0 (clientX - rect.left)) (rect.right - rect.left) /
      (rect.right - rect.left) * ((p.stopCount : ℚ) - 1)) := jsRound_nonneg _ hq0
  have hn1 : jsRound (min (max 0 (clientX - rect.left)) (rect.right - rect.left) /
      (rect.right - rect.left) * ((p.stopCount : ℚ) - 1)) ≤ p.stopCount - 1 :=
    jsRound_le _ _ (by push_cast; linarith)
  obtain ⟨hb0, hb1, hb2, hb3⟩ :=
    clampMaxMin_bounds p.maxValue p.minValue p.stopCount _ hn0 hn1 hmin hmax hmm
  exact ⟨_, rfl, rfl, hb0, hb1, hb2, hb3⟩

/-- A unit-width rectangle, for the C1 witness. -/
def rect1 : Rect := { left := 0, right := 1 }

/-- Witness for C1 at a concrete input: the bounded ten-stop config, a
mounted unit-width rectangle and pointer coordinate 1/3. -/
theorem calculateValue_in_range_witness :
    ∃ v, calculateValue cfgBounded (some rect1) (1/3) = some v ∧
      v = clampMaxMin cfgBounded.maxValue cfgBounded.minValue
        (jsRound (min (max 0 ((1 : ℚ)/3 - rect1.left)) (rect1.right - rect1.left) /
          (rect1.right - rect1.left) * ((cfgBounded.stopCount : ℚ) - 1))) ∧
      0 ≤ v ∧ v ≤ cfgBounded.stopCount - 1 ∧
      (∀ mn, cfgBounded.minValue = some mn → mn ≤ v) ∧
      (∀ mx, cfgBounded.maxValue = some mx → v ≤ mx) :=
  calculateValue_in_range cfgBounded rect1 (1/3) (by decide)
    (by norm_num [rect1])
    (fun mn h => by injection h with h; subst h; decide)
    (fun mx h => by injection h with h; subst h; decide)
    (fun mn mx h h' => by
      injection h with h
      injection h' with h'
      subst h
      subst h'
      decide)

/-! Claim C4: exactly one `onStop` per drag, carrying the last slid value. -/

/-- Value carried by the last entry of a trace segment, or the default when
the segment is empty. -/
def lastSnd : List (Nat × Option Int) → Option Int → Option Int
  | [], d => d
  | x :: xs, _ => lastSnd xs x.2

/-- A whole mouse drag session: primary-button press at `x0`, a sequence of
document-level moves, then the release. -/
def dragSession (t : Nat) (x0 : ℚ) (moves : List ℚ) (s : Sim) : Sim :=
  handleMouseUp t
    (List.foldl (fun acc x => handleMouseMove t x acc) (handleMouseDown t 0 x0 s) moves)

/-- A whole touch drag session: touch start at `x0`, a sequence of touch
moves, then the touch end. -/
def touchSession (t : Nat) (x0 : ℚ) (moves : List ℚ) (s : Sim) : Sim :=
  handleTouchEnd t
    (List.foldl (fun acc x => handleTouchMove t x acc) (handleTouchStart t x0 s) moves)

theorem lastSnd_append (g1 g2 : List (Nat × Option Int)) (d : Option Int) :
    lastSnd (g1 ++ g2) d = lastSnd g2 (lastSnd g1 d) := by
  induction g1 generalizing d with
  | nil => rfl
  | cons a g1 ih => exact ih a.2

/-- One mouse move appends at most one `onSlide` entry and keeps the state
value aligned with the end of the appended segment; everything the rest of a
drag relies on is untouched. -/
theorem handleMouseMove_gain (t : Nat) (x : ℚ) (s : Sim)
    (hd : s.props.disabled = false) (hm : s.mounted = true)
    (hs : s.props.hasOnSlide = true) :
    ∃ g, (handleMouseMove t x s).slides = s.slides ++ g ∧
      (handleMouseMove t x s).state.value = lastSnd g s.state.value ∧
      (handleMouseMove t x s).props = s.props ∧
      (handleMouseMove t x s).mounted = s.mounted ∧
      (handleMouseMove t x s).stops = s.stops := by
  by_cases hv : s.state.value = calculateValue s.props s.slider x
  · refine ⟨[], ?_, ?_, ?_, ?_, ?_⟩ <;>
      (unfold handleMouseMove; rw [hd]; simp [hv, lastSnd])
  · refine ⟨[(t, calculateValue s.props s.slider x)], ?_, ?_, ?_, ?_, ?_⟩ <;>
      (unfold handleMouseMove; rw [hd]; simp [hv, hs, hm, lastSnd])

/-- One touch move: same accounting as the mouse move. -/
theorem handleTouchMove_gain (t : Nat) (x : ℚ) (s : Sim)
    (hd : s.props.disabled = false) (hm : s.mounted = true)
    (hs : s.props.hasOnSlide = true) :
    ∃ g, (handleTouchMove t x s).slides = s.slides ++ g ∧
      (handleTouchMove t x s).state.value = lastSnd g s.state.value ∧
      (handleTouchMove t x s).props = s.props ∧
      (handleTouchMove t x s).mounted = s.mounted ∧
      (handleTouchMove t x s).stops = s.stops := by
  by_cases hv : s.state.value = calculateValue s.props s.slider x
  · refine ⟨[], ?_, ?_, ?_, ?_, ?_⟩ <;>
      (unfold handleTouchMove; rw [hd]; simp [hv, lastSnd])
  · refine ⟨[(t, calculateValue s.props s.slider x)], ?_, ?_, ?_, ?_, ?_⟩ <;>
      (unfold handleTouchMove; rw [hd]; simp [hv, hs, hm, lastSnd])

/-- Folding a list of mouse moves accumulates one trace segment whose last
entry is the final state value. -/
theorem foldl_mouseMoves_gain (t : Nat) (moves : List ℚ) :
    ∀ s : Sim, s.props.disabled = false → s.mounted = true →
      s.props.hasOnSlide = true →
      ∃ g, (List.foldl (fun acc x => handleMouseMove t x acc) s moves).slides =
          s.slides ++ g ∧
        (List.foldl (fun acc x => handleMouseMove t x acc) s moves).state.value =
          lastSnd g s.state.value ∧
        (List.foldl (fun acc x => handleMouseMove t x acc) s moves).props = s.props ∧
        (List.foldl (fun acc x => handleMouseMove t x acc) s moves).mounted = s.mounted ∧
        (List.foldl (fun acc x => handleMouseMove t x acc) s moves).stops = s.stops := by
  induction moves with
  | nil => exact fun s _ _ _ => ⟨[], by simp, rfl, rfl, rfl, rfl⟩
  | cons x xs ih =>
    intro s hd hm hs
    obtain ⟨g1, e1, v1, p1, m1, st1⟩ := handleMouseMove_gain t x s hd hm hs
    obtain ⟨g2, e2, v2, p2, m2, st2⟩ := ih (handleMouseMove t x s)
      (by rw [p1]; exact hd) (by rw [m1]; exact hm) (by rw [p1]; exact hs)
    refine ⟨g1 ++ g2, ?_, ?_, ?_, ?_, ?_⟩
    · simp only [List.foldl_cons] at *
      rw [e2, e1, List.append_assoc]
    · simp only [List.foldl_cons] at *
      rw [v2, v1, lastSnd_append]
    · simp only [List.foldl_cons] at *
      rw [p2, p1]
    · simp only [List.foldl_cons] at *
      rw [m2, m1]
    · simp only [List.foldl_cons] at *
      rw [st2, st1]

/-- Folding a list of touch moves: same accounting. -/
theorem foldl_touchMoves_gain (t : Nat) (moves : List ℚ) :
    ∀ s : Sim, s.props.disabled = false → s.mounted = true →
      s.props.hasOnSlide = true →
      ∃ g, (List.foldl (fun acc x => handleTouchMove t x acc) s moves).slides =
          s.slides ++ g ∧
        (List.foldl (fun acc x => handleTouchMove t x acc) s moves).state.value =
          lastSnd g s.state.value ∧
        (List.foldl (fun acc x => handleTouchMove t x acc) s moves).props = s.props ∧
        (List.foldl (fun acc x => handleTouchMove t x acc) s moves).mounted = s.mounted ∧
        (List.foldl (fun acc x => handleTouchMove t x acc) s moves).stops = s.stops := by
  induction moves with
  | nil => exact fun s _ _ _ => ⟨[], by simp, rfl, rfl, rfl, rfl⟩
  | cons x xs ih =>
    intro s hd hm hs
    obtain ⟨g1, e1, v1, p1, m1, st1⟩ := handleTouchMove_gain t x s hd hm hs
    obtain ⟨g2, e2, v2, p2, m2, st2⟩ := ih (handleTouchMove t x s)
      (by rw [p1]; exact hd) (by rw [m1]; exact hm) (by rw [p1]; exact hs)
    refine ⟨g1 ++ g2, ?_, ?_, ?_, ?_, ?_⟩
    · simp only [List.foldl_cons] at *
      rw [e2, e1, List.append_assoc]
    · simp only [List.foldl_cons] at *
      rw [v2, v1, lastSnd_append]
    · simp only [List.foldl_cons] at *
      rw [p2, p1]
    · simp only [List.foldl_cons] at *
      rw [m2, m1]
    · simp only [List.foldl_cons] at *
      rw [st2, st1]

/-- The mouse release appends exactly one `onStop` entry, carrying the
current state value, and leaves the `onSlide` trace alone. -/
theorem handleMouseUp_emit (t : Nat) (s : Sim)
    (hd : s.props.disabled = false) (hstop : s.props.hasOnStop = true) :
    (handleMouseUp t s).stops = s.stops ++ [(t, s.state.value)] ∧
    (handleMouseUp t s).slides = s.slides := by
  by_cases hm : s.mounted = true <;>
    simp [handleMouseUp, handleTogglePopover, hd, hstop, hm]

/-- The touch end: same accounting as the mouse release. -/
theorem handleTouchEnd_emit (t : Nat) (s : Sim)
    (hd : s.props.disabled = false) (hstop : s.props.hasOnStop = true) :
    (handleTouchEnd t s).stops = s.stops ++ [(t, s.state.value)] ∧
    (handleTouchEnd t s).slides = s.slides := by
  by_cases hm : s.mounted = true <;>
    simp [handleTouchEnd, handleTogglePopover, hd, hstop, hm]

/-- The instance as `handleMouseDown` leaves it right before it forwards the
press position to `handleMouseMove`: document listeners registered, hover and
sliding flags raised. -/
def mouseDownStart (s : Sim) : Sim :=
  { s with
    listeners := { s.listeners with mousemove := true, mouseup := true }
    state := { s.state with isHovered := true, isSliding := true } }

/-- The instance as `handleTouchStart` leaves it right before it forwards the
position to `handleTouchMove`. -/
def touchStartState (s : Sim) : Sim :=
  { s with
    listeners := { s.listeners with touchmove := true, touchend := true }
    state := { s.state with isHovered := true, isSliding := true } }

/-- C4: a full drag session (mouse or touch) on a non-disabled widget emits
exactly one `onStop` entry, whose value equals the value of the session's
last `onSlide` entry, or the pre-drag value when the session slid nothing. -/
theorem drag_onStop_once_with_last_value :
    (∀ (t : Nat) (x0 : ℚ) (moves : List ℚ) (s : Sim),
      s.props.disabled = false → s.mounted = true →
      s.props.hasOnSlide = true → s.props.hasOnStop = true →
      s.state.isSliding = false →
      ∃ g, (dragSession t x0 moves s).slides = s.slides ++ g ∧
        (dragSession t x0 moves s).stops = s.stops ++ [(t, lastSnd g s.state.value)]) ∧
    (∀ (t : Nat) (x0 : ℚ) (moves : List ℚ) (s : Sim),
      s.props.disabled = false → s.mounted = true →
      s.props.hasOnSlide = true → s.props.hasOnStop = true →
      ∃ g, (touchSession t x0 moves s).slides = s.slides ++ g ∧
        (touchSession t x0 moves s).stops = s.stops ++ [(t, lastSnd g s.state.value)]) := by
  constructor
  · intro t x0 moves s hd hm hs hstop hsl
    have hdown : handleMouseDown t 0 x0 s = handleMouseMove t x0 (mouseDownStart s) := by
      unfold handleMouseDown mouseDownStart
      rw [hd]
      simp [hsl]
    obtain ⟨g0, e0, v0, p0, m0, st0⟩ := handleMouseMove_gain t x0 (mouseDownStart s) hd hm hs
    obtain ⟨g1, e1, v1, p1, m1, st1⟩ :=
      foldl_mouseMoves_gain t moves (handleMouseMove t x0 (mouseDownStart s))
        (by rw [p0]; exact hd) (by rw [m0]; exact hm) (by rw [p0]; exact hs)
    obtain ⟨eu, su⟩ := handleMouseUp_emit t
      (List.foldl (fun acc x => handleMouseMove t x acc)
        (handleMouseMove t x0 (mouseDownStart s)) moves)
      (by rw [p1, p0]; exact hd) (by rw [p1, p0]; exact hstop)
    refine ⟨g0 ++ g1, ?_, ?_⟩
    · unfold dragSession
      rw [hdown, su, e1, e0]
      simp [mouseDownStart, List.append_assoc]
    · unfold dragSession
      rw [hdown, eu, st1, st0, v1, v0, lastSnd_append]
      simp [mouseDownStart]
  · intro t x0 moves s hd hm hs hstop
    have hdown : handleTouchStart t x0 s = handleTouchMove t x0 (touchStartState s) := by
      unfold handleTouchStart touchStartState
      rw [hd]
      simp
    obtain ⟨g0, e0, v0, p0, m0, st0⟩ := handleTouchMove_gain t x0 (touchStartState s) hd hm hs
    obtain ⟨g1, e1, v1, p1, m1, st1⟩ :=
      foldl_touchMoves_gain t moves (handleTouchMove t x0 (touchStartState s))
        (by rw [p0]; exact hd) (by rw [m0]; exact hm) (by rw [p0]; exact hs)
    obtain ⟨eu, su⟩ := handleTouchEnd_emit t
      (List.foldl (fun acc x => handleTouchMove t x acc)
        (handleTouchMove t x0 (touchStartState s)) moves)
      (by rw [p1, p0]; exact hd) (by rw [p1, p0]; exact hstop)
    refine ⟨g0 ++ g1, ?_, ?_⟩
    · unfold touchSession
      rw [hdown, su, e1, e0]
      simp [touchStartState, List.append_assoc]
    · unfold touchSession
      rw [hdown, eu, st1, st0, v1, v0, lastSnd_append]
      simp [touchStartState]

/-- Witness for C4 at a concrete input: a drag on an unmounted-rect instance
(press at 50, one move to 60, release). -/
theorem drag_onStop_once_with_last_value_witness :
    ∃ g, (dragSession 0 50 [60] (initSim cfgFree 5 none)).slides =
        (initSim cfgFree 5 none).slides ++ g ∧
      (dragSession 0 50 [60] (initSim cfgFree 5 none)).stops =
        (initSim cfgFree 5 none).stops ++
          [(0, lastSnd g (initSim cfgFree 5 none).state.value)] :=
  drag_onStop_once_with_last_value.1 0 50 [60] (initSim cfgFree 5 none)
    rfl rfl rfl rfl rfl

/-! Claim C8: when `isSliding` is true. -/

/-- C8 counterexample: start a drag (isSliding becomes true), set `disabled`,
then deliver the matching mouse-up.  `handleMouseUp` returns at its disabled
guard before clearing anything, so after the end event `isSliding` is still
true and the document listeners are still registered. -/
theorem isSliding_survives_disabled_end :
    (applyEv 0 (Ev.mouseDown 0 50) (initSim cfgFree 3 none)).state.isSliding = true ∧
    (applyEv 2 Ev.mouseUp (applyEv 1 (Ev.setDisabled true)
      (applyEv 0 (Ev.mouseDown 0 50) (initSim cfgFree 3 none)))).state.isSliding = true ∧
    (applyEv 2 Ev.mouseUp (applyEv 1 (Ev.setDisabled true)
      (applyEv 0 (Ev.mouseDown 0 50) (initSim cfgFree 3 none)))).listeners.mouseup = true := by
  decide

/-- Disabled flag after an event (`componentWillReceiveProps` keeps `disabled`
in sync with the caller). -/
def nextDis (dis : Bool) : Ev → Bool
  | Ev.setDisabled b => b
  | _ => dis

/-- The abstract drag automaton mirroring the handlers: `none` = no drag,
`some true` = mouse drag, `some false` = touch drag.  An end event arriving
while disabled leaves the drag open, exactly as the guarded handlers do. -/
def absStep (dis : Bool) (drag : Option Bool) : Ev → Option Bool
  | Ev.mouseDown b _ =>
    if dis then drag else if b ≠ 0 ∨ drag.isSome then drag else some true
  | Ev.mouseUp => if drag = some true then (if dis then drag else none) else drag
  | Ev.touchStart _ => if dis then drag else some false
  | Ev.touchEnd => if drag = some false then (if dis then drag else none) else drag
  | _ => drag

/-- Well-formed event sequences: no unmount, and no touch-start in the middle
of an active mouse drag (the source does not guard that case). -/
def wfEvs (dis : Bool) (drag : Option Bool) : List (Nat × Ev) → Prop
  | [] => True
  | (_, e) :: rest =>
    e ≠ Ev.unmountEv ∧
    (∀ x, e = Ev.touchStart x → dis = true ∨ drag ≠ some true) ∧
    wfEvs (nextDis dis e) (absStep dis drag e) rest

/-- Run of external events through the component (no timer interleaving;
timer callbacks never touch `isSliding` or the listeners, see the frame
conjunct of the main theorem). -/
def runEvs (evs : List (Nat × Ev)) (s : Sim) : Sim :=
  List.foldl (fun acc te => applyEv te.1 te.2 acc) s evs

/-- Run of the abstract drag automaton. -/
def absRunDrag (dis : Bool) (drag : Option Bool) : List (Nat × Ev) → Option Bool
  | [] => drag
  | (_, e) :: rest => absRunDrag (nextDis dis e) (absStep dis drag e) rest

/-- Simulation relation: `isSliding` tracks the abstract drag, and the four
document listeners are registered exactly for the active drag kind (hence at
most one drag is active at a time). -/
def relDrag (s : Sim) (drag : Option Bool) : Prop :=
  (s.state.isSliding = true ↔ drag.isSome = true) ∧
  (s.listeners.mousemove = true ↔ drag = some true) ∧
  (s.listeners.mouseup = true ↔ drag = some true) ∧
  (s.listeners.touchmove = true ↔ drag = some false) ∧
  (s.listeners.touchend = true ↔ drag = some false)

/-- Keyboard handling never touches `isSliding`, the listeners, the props or
the mounted flag. -/
theorem handleKeyDown_frame (t : Nat) (k : Key) (s : Sim) :
    (handleKeyDown t k s).state.isSliding = s.state.isSliding ∧
    (handleKeyDown t k s).listeners = s.listeners ∧
    (handleKeyDown t k s).props = s.props ∧
    (handleKeyDown t k s).mounted = s.mounted := by
  unfold handleKeyDown handleThrottledKeyDown keyDownBody keyCommit
    handleDebouncedKeyInput handleTogglePopover
  dsimp only
  split_ifs <;> simp

/-- Pointer moves never touch `isSliding`, the listeners, the props or the
mounted flag. -/
theorem handleMouseMove_frame (t : Nat) (x : ℚ) (s : Sim) :
    (handleMouseMove t x s).state.isSliding = s.state.isSliding ∧
    (handleMouseMove t x s).listeners = s.listeners ∧
    (handleMouseMove t x s).props = s.props ∧
    (handleMouseMove t x s).mounted = s.mounted := by
  unfold handleMouseMove
  dsimp only
  split_ifs <;> simp

/-- Touch moves never touch `isSliding`, the listeners, the props or the
mounted flag. -/
theorem handleTouchMove_frame (t : Nat) (x : ℚ) (s : Sim) :
    (handleTouchMove t x s).state.isSliding = s.state.isSliding ∧
    (handleTouchMove t x s).listeners = s.listeners ∧
    (handleTouchMove t x s).props = s.props ∧
    (handleTouchMove t x s).mounted = s.mounted := by
  unfold handleTouchMove
  dsimp only
  split_ifs <;> simp

/-- Timer callbacks (tooltip, throttle trailing edge, debounce trailing edge)
never touch `isSliding` or the listeners. -/
theorem fireEarliest_frame (t : Nat) (s : Sim) :
    (fireEarliest t s).state.isSliding = s.state.isSliding ∧
    (fireEarliest t s).listeners = s.listeners := by
  unfold fireEarliest fireTooltip fireThrottle fireDebounce keyDownBody keyCommit
    handleDebouncedKeyInput debouncedKeyBody handleTogglePopover
  dsimp only
  split_ifs <;> (try split) <;> (try split_ifs) <;> exact ⟨rfl, rfl⟩

/-- Guard of `handleMouseDown`: non-primary button or an already active
slide leaves the instance untouched (helper shared by the drag-machine
proofs). -/
theorem mouseDownGuard_noop (t : Nat) (b : Int) (x : ℚ) (s : Sim)
    (h : b ≠ 0 ∨ s.state.isSliding = true) :
    handleMouseDown t b x s = s := by
  unfold handleMouseDown
  rcases h with h | h
  · split
    · rfl
    · rw [if_pos (Or.inl h)]
  · split
    · rfl
    · rw [if_pos (Or.inr (by simp [h]))]

/-- A successful primary-button press forwards to the move handler on the
listener-registered, sliding state. -/
theorem handleMouseDown_start (t : Nat) (x : ℚ) (s : Sim)
    (hd : s.props.disabled = false) (hsl : s.state.isSliding = false) :
    handleMouseDown t 0 x s = handleMouseMove t x (mouseDownStart s) := by
  unfold handleMouseDown mouseDownStart
  rw [hd]
  simp [hsl]

/-- A touch start on a non-disabled widget forwards to the touch move
handler on the listener-registered, sliding state. -/
theorem handleTouchStart_start (t : Nat) (x : ℚ) (s : Sim)
    (hd : s.props.disabled = false) :
    handleTouchStart t x s = handleTouchMove t x (touchStartState s) := by
  unfold handleTouchStart touchStartState
  rw [hd]
  simp

/-- Effect of a non-disabled mouse release on the drag-related fields. -/
theorem handleMouseUp_shape (t : Nat) (s : Sim)
    (hd : s.props.disabled = false) (hm : s.mounted = true) :
    (handleMouseUp t s).listeners.mousemove = false ∧
    (handleMouseUp t s).listeners.mouseup = false ∧
    (handleMouseUp t s).listeners.touchmove = s.listeners.touchmove ∧
    (handleMouseUp t s).listeners.touchend = s.listeners.touchend ∧
    (handleMouseUp t s).state.isSliding = false ∧
    (handleMouseUp t s).props = s.props ∧
    (handleMouseUp t s).mounted = s.mounted := by
  by_cases hstop : s.props.hasOnStop = true <;>
    simp [handleMouseUp, handleTogglePopover, hd, hm, hstop]

/-- Effect of a non-disabled touch end on the drag-related fields. -/
theorem handleTouchEnd_shape (t : Nat) (s : Sim)
    (hd : s.props.disabled = false) (hm : s.mounted = true) :
    (handleTouchEnd t s).listeners.touchmove = false ∧
    (handleTouchEnd t s).listeners.touchend = false ∧
    (handleTouchEnd t s).listeners.mousemove = s.listeners.mousemove ∧
    (handleTouchEnd t s).listeners.mouseup = s.listeners.mouseup ∧
    (handleTouchEnd t s).state.isSliding = false ∧
    (handleTouchEnd t s).props = s.props ∧
    (handleTouchEnd t s).mounted = s.mounted := by
  by_cases hstop : s.props.hasOnStop = true <;>
    simp [handleTouchEnd, handleTogglePopover, hd, hm, hstop]

/-- One well-formed event preserves the simulation relation between the
component and the abstract drag automaton. -/
theorem relDrag_step (t : Nat) (e : Ev) (s : Sim) (dis : Bool) (drag : Option Bool)
    (hrel : relDrag s drag) (hdis : s.props.disabled = dis) (hm : s.mounted = true)
    (hne : e ≠ Ev.unmountEv)
    (hts : ∀ x, e = Ev.touchStart x → dis = true ∨ drag ≠ some true) :
    relDrag (applyEv t e s) (absStep dis drag e) ∧
    (applyEv t e s).props.disabled = nextDis dis e ∧
    (applyEv t e s).mounted = true := by
  obtain ⟨r1, r2, r3, r4, r5⟩ := hrel
  cases e with
  | keyDown k =>
    obtain ⟨f1, f2, f3, f4⟩ := handleKeyDown_frame t k s
    simp only [applyEv, absStep, nextDis]
    refine ⟨⟨?_, ?_, ?_, ?_, ?_⟩, ?_, ?_⟩
    · rw [f1]; exact r1
    · rw [f2]; exact r2
    · rw [f2]; exact r3
    · rw [f2]; exact r4
    · rw [f2]; exact r5
    · rw [f3]; exact hdis
    · rw [f4]; exact hm
  | mouseDown b x =>
    simp only [applyEv, absStep, nextDis]
    by_cases hdisb : dis = true
    · have hdd : s.props.disabled = true := by rw [hdis, hdisb]
      have hstep : handleMouseDown t b x s = s := by
        unfold handleMouseDown
        simp [hdd]
      rw [hstep, if_pos hdisb]
      exact ⟨⟨r1, r2, r3, r4, r5⟩, hdis, hm⟩
    · have hdisf : dis = false := by revert hdisb; cases dis <;> simp
      have hdd : s.props.disabled = false := by rw [hdis, hdisf]
      rw [if_neg hdisb]
      by_cases hb : b ≠ 0 ∨ drag.isSome = true
      · have hguard : b ≠ 0 ∨ s.state.isSliding = true := by
          rcases hb with h | h
          · exact Or.inl h
          · exact Or.inr (r1.mpr h)
        rw [mouseDownGuard_noop t b x s hguard, if_pos hb]
        exact ⟨⟨r1, r2, r3, r4, r5⟩, hdis, hm⟩
      · have hb0 : b = 0 := by
          rcases not_or.mp hb with ⟨h1, _⟩
          exact not_not.mp h1
        cases drag with
        | some db =>
          cases db with
          | true => exact absurd (Or.inr (by simp)) hb
          | false => exact absurd (Or.inr (by simp)) hb
        | none =>
          subst hb0
          have hsl : s.state.isSliding = false := by
            cases hsli : s.state.isSliding
            · rfl
            · exact absurd (r1.mp hsli) (by simp)
          rw [handleMouseDown_start t x s hdd hsl, if_neg hb]
          obtain ⟨f1, f2, f3, f4⟩ := handleMouseMove_frame t x (mouseDownStart s)
          have ht4 : s.listeners.touchmove = false := by
            cases hh : s.listeners.touchmove
            · rfl
            · exact absurd (r4.mp hh) (by simp)
          have ht5 : s.listeners.touchend = false := by
            cases hh : s.listeners.touchend
            · rfl
            · exact absurd (r5.mp hh) (by simp)
          refine ⟨⟨?_, ?_, ?_, ?_, ?_⟩, ?_, ?_⟩
          · rw [f1]; simp [mouseDownStart]
          · rw [f2]; simp [mouseDownStart]
          · rw [f2]; simp [mouseDownStart]
          · rw [f2]; simp [mouseDownStart, ht4]
          · rw [f2]; simp [mouseDownStart, ht5]
          · rw [f3]; exact hdis
          · rw [f4]; exact hm
  | mouseMove x =>
    simp only [applyEv, absStep, nextDis]
    by_cases hmv : s.listeners.mousemove = true
    · rw [if_pos hmv]
      obtain ⟨f1, f2, f3, f4⟩ := handleMouseMove_frame t x s
      refine ⟨⟨?_, ?_, ?_, ?_, ?_⟩, ?_, ?_⟩
      · rw [f1]; exact r1
      · rw [f2]; exact r2
      · rw [f2]; exact r3
      · rw [f2]; exact r4
      · rw [f2]; exact r5
      · rw [f3]; exact hdis
      · rw [f4]; exact hm
    · rw [if_neg hmv]
      exact ⟨⟨r1, r2, r3, r4, r5⟩, hdis, hm⟩
  | mouseUp =>
    simp only [applyEv, absStep, nextDis]
    by_cases hup : s.listeners.mouseup = true
    · have hdragt : drag = some true := r3.mp hup
      subst hdragt
      rw [if_pos hup, if_pos rfl]
      by_cases hdisb : dis = true
      · have hdd : s.props.disabled = true := by rw [hdis, hdisb]
        have hstep : handleMouseUp t s = s := by
          unfold handleMouseUp
          simp [hdd]
        rw [hstep, if_pos hdisb]
        exact ⟨⟨r1, r2, r3, r4, r5⟩, hdis, hm⟩
      · have hdisf : dis = false := by revert hdisb; cases dis <;> simp
        have hdd : s.props.disabled = false := by rw [hdis, hdisf]
        rw [if_neg hdisb]
        obtain ⟨u1, u2, u3, u4, u5, u6, u7⟩ := handleMouseUp_shape t s hdd hm
        have ht4 : s.listeners.touchmove = false := by
          cases hh : s.listeners.touchmove
          · rfl
          · exact absurd (r4.mp hh) (by simp)
        have ht5 : s.listeners.touchend = false := by
          cases hh : s.listeners.touchend
          · rfl
          · exact absurd (r5.mp hh) (by simp)
        refine ⟨⟨?_, ?_, ?_, ?_, ?_⟩, ?_, ?_⟩
        · rw [u5]; simp
        · rw [u1]; simp
        · rw [u2]; simp
        · rw [u3, ht4]; simp
        · rw [u4, ht5]; simp
        · rw [u6]; exact hdis
        · rw [u7]; exact hm
    · have hdragn : ¬(drag = some true) := fun hh => hup (r3.mpr hh)
      rw [if_neg hup, if_neg hdragn]
      exact ⟨⟨r1, r2, r3, r4, r5⟩, hdis, hm⟩
  | touchStart x =>
    have hts' := hts x rfl
    simp only [applyEv, absStep, nextDis]
    by_cases hdisb : dis = true
    · have hdd : s.props.disabled = true := by rw [hdis, hdisb]
      have hstep : handleTouchStart t x s = s := by
        unfold handleTouchStart
        simp [hdd]
      rw [hstep, if_pos hdisb]
      exact ⟨⟨r1, r2, r3, r4, r5⟩, hdis, hm⟩
    · have hdisf : dis = false := by revert hdisb; cases dis <;> simp
      have hdd : s.props.disabled = false := by rw [hdis, hdisf]
      have hnm : drag ≠ some true := hts'.resolve_left hdisb
      rw [handleTouchStart_start t x s hdd, if_neg hdisb]
      obtain ⟨f1, f2, f3, f4⟩ := handleTouchMove_frame t x (touchStartState s)
      have hm2 : s.listeners.mousemove = false := by
        cases hh : s.listeners.mousemove
        · rfl
        · exact absurd (r2.mp hh) hnm
      have hm3 : s.listeners.mouseup = false := by
        cases hh : s.listeners.mouseup
        · rfl
        · exact absurd (r3.mp hh) hnm
      refine ⟨⟨?_, ?_, ?_, ?_, ?_⟩, ?_, ?_⟩
      · rw [f1]; simp [touchStartState]
      · rw [f2]; simp [touchStartState, hm2]
      · rw [f2]; simp [touchStartState, hm3]
      · rw [f2]; simp [touchStartState]
      · rw [f2]; simp [touchStartState]
      · rw [f3]; exact hdis
      · rw [f4]; exact hm
  | touchMove x =>
    simp only [applyEv, absStep, nextDis]
    by_cases hmv : s.listeners.touchmove = true
    · rw [if_pos hmv]
      obtain ⟨f1, f2, f3, f4⟩ := handleTouchMove_frame t x s
      refine ⟨⟨?_, ?_, ?_, ?_, ?_⟩, ?_, ?_⟩
      · rw [f1]; exact r1
      · rw [f2]; exact r2
      · rw [f2]; exact r3
      · rw [f2]; exact r4
      · rw [f2]; exact r5
      · rw [f3]; exact hdis
      · rw [f4]; exact hm
    · rw [if_neg hmv]
      exact ⟨⟨r1, r2, r3, r4, r5⟩, hdis, hm⟩
  | touchEnd =>
    simp only [applyEv, absStep, nextDis]
    by_cases hup : s.listeners.touchend = true
    · have hdragt : drag = some false := r5.mp hup
      subst hdragt
      rw [if_pos hup, if_pos rfl]
      by_cases hdisb : dis = true
      · have hdd : s.props.disabled = true := by rw [hdis, hdisb]
        have hstep : handleTouchEnd t s = s := by
          unfold handleTouchEnd
          simp [hdd]
        rw [hstep, if_pos hdisb]
        exact ⟨⟨r1, r2, r3, r4, r5⟩, hdis, hm⟩
      · have hdisf : dis = false := by revert hdisb; cases dis <;> simp
        have hdd : s.props.disabled = false := by rw [hdis, hdisf]
        rw [if_neg hdisb]
        obtain ⟨u1, u2, u3, u4, u5, u6, u7⟩ := handleTouchEnd_shape t s hdd hm
        have hmm2 : s.listeners.mousemove = false := by
          cases hh : s.listeners.mousemove
          · rfl
          · exact absurd (r2.mp hh) (by simp)
        have hmm3 : s.listeners.mouseup = false := by
          cases hh : s.listeners.mouseup
          · rfl
          · exact absurd (r3.mp hh) (by simp)
        refine ⟨⟨?_, ?_, ?_, ?_, ?_⟩, ?_, ?_⟩
        · rw [u5]; simp
        · rw [u3, hmm2]; simp
        · rw [u4, hmm3]; simp
        · rw [u1]; simp
        · rw [u2]; simp
        · rw [u6]; exact hdis
        · rw [u7]; exact hm
    · have hdragn : ¬(drag = some false) := fun hh => hup (r5.mpr hh)
      rw [if_neg hup, if_neg hdragn]
      exact ⟨⟨r1, r2, r3, r4, r5⟩, hdis, hm⟩
  | setDisabled b =>
    exact ⟨⟨r1, r2, r3, r4, r5⟩, rfl, hm⟩
  | unmountEv => exact absurd rfl hne

/-- The simulation relation is preserved along any well-formed run. -/
theorem relDrag_run (evs : List (Nat × Ev)) :
    ∀ (s : Sim) (dis : Bool) (drag : Option Bool),
      relDrag s drag → s.props.disabled = dis → s.mounted = true →
      wfEvs dis drag evs →
      relDrag (runEvs evs s) (absRunDrag dis drag evs) := by
  induction evs with
  | nil => exact fun s dis drag hrel _ _ _ => hrel
  | cons te rest ih =>
    obtain ⟨tt, ee⟩ := te
    intro s dis drag hrel hdis hm hwf
    obtain ⟨hne, hts, hwf'⟩ := hwf
    obtain ⟨hrel', hdis', hm'⟩ := relDrag_step tt ee s dis drag hrel hdis hm hne hts
    exact ih (applyEv tt ee s) (nextDis dis ee) (absStep dis drag ee) hrel' hdis' hm' hwf'

/-- C8 (amended): under well-formed event sequences the component simulates
the abstract drag automaton: `isSliding` is true exactly while the automaton
holds an open drag, each drag owns its matching listener pair (so at most one
drag is active at a time), and the automaton clears the drag only at an end
event processed while `disabled` is false — an end event arriving while
disabled is true is ignored and `isSliding` stays true.  Timer callbacks
never change `isSliding` or the listener set. -/
theorem isSliding_matches_drag_automaton :
    (∀ (evs : List (Nat × Ev)) (s : Sim) (dis : Bool) (drag : Option Bool),
      relDrag s drag → s.props.disabled = dis → s.mounted = true →
      wfEvs dis drag evs →
      relDrag (runEvs evs s) (absRunDrag dis drag evs)) ∧
    (∀ (t : Nat) (s : Sim),
      (fireEarliest t s).state.isSliding = s.state.isSliding ∧
      (fireEarliest t s).listeners = s.listeners) :=
  ⟨fun evs s dis drag => relDrag_run evs s dis drag, fireEarliest_frame⟩

/-- Witness for the amended C8 statement at a concrete input: a fresh
instance runs a primary-button press followed by its release. -/
theorem isSliding_matches_drag_automaton_witness :
    relDrag (runEvs [(0, Ev.mouseDown 0 50), (1, Ev.mouseUp)] (initSim cfgFree 3 none))
      (absRunDrag false none [(0, Ev.mouseDown 0 50), (1, Ev.mouseUp)]) :=
  isSliding_matches_drag_automaton.1 [(0, Ev.mouseDown 0 50), (1, Ev.mouseUp)]
    (initSim cfgFree 3 none) false none
    (by unfold relDrag; decide) rfl rfl
    ⟨by decide, fun x h => Ev.noConfusion h, by decide, fun x h => Ev.noConfusion h, trivial⟩
